import Mathlib

/-!
Verification development for the blurit-anonymization nodejs-sdk.

The SDK is a thin HTTP client: a `Blurit` class holding a mutable
`loginData` session, an authenticated request pipeline (`request`), a
recursive multipart form encoder (`appendFormData`), job/result/webhook
facade methods, and two platform subclasses (node, browser).

We shallow-embed the code of `src/blurit.common.ts`, `src/blurit.node.ts`
and `src/blurit.browser.ts`.  JavaScript values that flow into request
bodies are modelled by the inductive `JSValue`; multipart forms are
association lists of `FormEntry`; the axios request configuration is the
record `AxiosConfig` with `Option` fields (`none` models an absent
property, so object spread becomes a field-wise right-biased merge).
The HTTP transport is an oracle: each run of an operation takes the
`Response` the server would produce and returns the list of requests the
operation issued, the resulting client state and the outcome
(`Except String _` models throw/return).
-/

/-- Bytes-plus-content-type, modelling a JS `Blob`.  `type = none` models a
blob constructed without a MIME type. -/
structure BlobData where
  bytes : List Nat
  type : Option String
  deriving Repr, DecidableEq

/-- A JS `File`: blob content plus a name. -/
structure FileData where
  blob : BlobData
  name : String
  deriving Repr, DecidableEq

/-- JavaScript values reachable by the form encoder `appendFormData`:
`undefined`, `null`, a scalar (already rendered to the string that
`FormData.append` would coerce it to), a binary blob, or a plain object
given as an insertion-ordered field list (the order `for...in` visits). -/
inductive JSValue where
  | vUndefined : JSValue
  | vNull : JSValue
  | vScalar (s : String) : JSValue
  | vBlob (b : BlobData) : JSValue
  | vObj (fields : List (String × JSValue)) : JSValue
  deriving Repr

/-- One multipart form entry value: a string field, or a blob with the
optional filename passed as the third `FormData.append` argument. -/
inductive FormEntry where
  | str (s : String) : FormEntry
  | blobE (b : BlobData) (filename : Option String) : FormEntry
  deriving Repr, DecidableEq

/-- `data[key] !== undefined && data[key] !== null`, negated: the values the
encoder loop skips. -/
def JSValue.isNullish : JSValue → Bool
  | .vUndefined => true
  | .vNull => true
  | _ => false

/-- `parentKey ? parentKey[key] : key` — the accumulated bracketed key path. -/
def childKey (parentKey : Option String) (key : String) : String :=
  match parentKey with
  | some p => p ++ "[" ++ key ++ "]"
  | none => key

/-- `formData.append(parentKey!, data)` coerces an undefined key to the
string "undefined"; the SDK only ever reaches this with a key present. -/
def keyStr (parentKey : Option String) : String :=
  parentKey.getD "undefined"

mutual

/-- Embeds `Blurit.appendFormData(formData, data, parentKey)`
(src/blurit.common.ts): a plain object (not a File or Blob) recurses over
its fields, skipping undefined and null values and extending the bracketed
key path; undefined and null leaves append nothing; every other value is
appended under the accumulated key.  The form is an accumulator, appended
at the end. -/
def appendFormData (form : List (String × FormEntry)) (data : JSValue)
    (parentKey : Option String) : List (String × FormEntry) :=
  match data with
  | .vObj fields => appendFields form fields parentKey
  | .vUndefined => form
  | .vNull => form
  | .vScalar s => form ++ [(keyStr parentKey, FormEntry.str s)]
  | .vBlob b => form ++ [(keyStr parentKey, FormEntry.blobE b none)]

/-- The `for (const key in data)` loop body of `appendFormData`. -/
def appendFields (form : List (String × FormEntry))
    (fields : List (String × JSValue)) (parentKey : Option String) :
    List (String × FormEntry) :=
  match fields with
  | [] => form
  | (key, v) :: rest =>
    let form2 :=
      if v.isNullish then form
      else appendFormData form v (some (childKey parentKey key))
    appendFields form2 rest parentKey

end

/-- `included_area` of `AnonymizationOptions`: all four bounds required.
Numeric option values are modelled as integers. -/
structure IncludedArea where
  top : Int
  bottom : Int
  left : Int
  right : Int
  deriving Repr, DecidableEq

/-- `blur_type` of `AnonymizationOptions`; every field optional. -/
structure BlurType where
  anonymization_type : Option String
  smooth_padding : Option Int
  hex_color : Option String
  num_pixels : Option Int
  deriving Repr, DecidableEq

/-- `AnonymizationOptions` (src/blurit.common.ts): every field optional. -/
structure AnonymizationOptions where
  activation_faces_blur : Option Bool
  activation_plates_blur : Option Bool
  output_detections_url : Option Bool
  included_area : Option IncludedArea
  blur_type : Option BlurType
  deriving Repr, DecidableEq

/-- The string `FormData.append` coerces a JS boolean to. -/
def boolStr (b : Bool) : String := if b then "true" else "false"

/-- An optional boolean field as the JS value the encoder sees (an absent
field and a field explicitly set to undefined encode identically, since the
loop skips undefined either way). -/
def jsOfBool : Option Bool → JSValue
  | none => .vUndefined
  | some b => .vScalar (boolStr b)

/-- An optional string field as a JS value. -/
def jsOfStr : Option String → JSValue
  | none => .vUndefined
  | some s => .vScalar s

/-- An optional numeric field as a JS value. -/
def jsOfInt : Option Int → JSValue
  | none => .vUndefined
  | some n => .vScalar (toString n)

/-- The `included_area` object as the JS value passed to the encoder. -/
def IncludedArea.toValue (a : IncludedArea) : JSValue :=
  .vObj [("top", .vScalar (toString a.top)),
         ("bottom", .vScalar (toString a.bottom)),
         ("left", .vScalar (toString a.left)),
         ("right", .vScalar (toString a.right))]

/-- The `blur_type` object as the JS value passed to the encoder. -/
def BlurType.toValue (b : BlurType) : JSValue :=
  .vObj [("anonymization_type", jsOfStr b.anonymization_type),
         ("smooth_padding", jsOfInt b.smooth_padding),
         ("hex_color", jsOfStr b.hex_color),
         ("num_pixels", jsOfInt b.num_pixels)]

/-- An `AnonymizationOptions` object as the JS value passed to the encoder,
fields in declaration (insertion) order. -/
def AnonymizationOptions.toValue (o : AnonymizationOptions) : JSValue :=
  .vObj [("activation_faces_blur", jsOfBool o.activation_faces_blur),
         ("activation_plates_blur", jsOfBool o.activation_plates_blur),
         ("output_detections_url", jsOfBool o.output_detections_url),
         ("included_area", (o.included_area.map IncludedArea.toValue).getD .vUndefined),
         ("blur_type", (o.blur_type.map BlurType.toValue).getD .vUndefined)]

/-- The fields `this.appendFormData(data, options)` adds to the form:
encoding an options object into an initially empty form. -/
def encodeOptions (o : AnonymizationOptions) : List (String × FormEntry) :=
  appendFormData [] o.toValue none

/-- Spec-side description (written from the words of the spec, to be
compared with the code-side encoder): the form holds exactly the defined
fields of the options object, each under its bracketed key path, absent
(undefined/null) fields skipped entirely. -/
def specDefinedFields (o : AnonymizationOptions) : List (String × FormEntry) :=
  (match o.activation_faces_blur with
   | some b => [("activation_faces_blur", FormEntry.str (boolStr b))]
   | none => []) ++
  (match o.activation_plates_blur with
   | some b => [("activation_plates_blur", FormEntry.str (boolStr b))]
   | none => []) ++
  (match o.output_detections_url with
   | some b => [("output_detections_url", FormEntry.str (boolStr b))]
   | none => []) ++
  (match o.included_area with
   | some a =>
     [("included_area[top]", FormEntry.str (toString a.top)),
      ("included_area[bottom]", FormEntry.str (toString a.bottom)),
      ("included_area[left]", FormEntry.str (toString a.left)),
      ("included_area[right]", FormEntry.str (toString a.right))]
   | none => []) ++
  (match o.blur_type with
   | some b =>
     (match b.anonymization_type with
      | some t => [("blur_type[anonymization_type]", FormEntry.str t)]
      | none => []) ++
     (match b.smooth_padding with
      | some n => [("blur_type[smooth_padding]", FormEntry.str (toString n))]
      | none => []) ++
     (match b.hex_color with
      | some s => [("blur_type[hex_color]", FormEntry.str s)]
      | none => []) ++
     (match b.num_pixels with
      | some n => [("blur_type[num_pixels]", FormEntry.str (toString n))]
      | none => [])
   | none => [])

/-- Request bodies: a JSON object body (axios serializes it) or a multipart
`FormData` body. -/
inductive Body where
  | json (fields : List (String × JSValue)) : Body
  | form (entries : List (String × FormEntry)) : Body
  deriving Repr

/-- The axios request configuration, restricted to the fields this SDK and
its callers touch.  `none` models an absent property, so JS object spread
becomes the field-wise right-biased merge `overlay`.  `noBearer` is the
extra flag of `RequestOpions`; object spread copies it into the outgoing
config like any other property. -/
structure AxiosConfig where
  url : Option String := none
  method : Option String := none
  baseURL : Option String := none
  data : Option Body := none
  headers : Option (List (String × String)) := none
  responseType : Option String := none
  timeout : Option Nat := none
  noBearer : Option Bool := none
  deriving Repr

/-- JS object spread `{...a, ...b}`: a property of `b`, when present,
overrides the same property of `a`. -/
def overlay (a b : AxiosConfig) : AxiosConfig where
  url := b.url.orElse fun _ => a.url
  method := b.method.orElse fun _ => a.method
  baseURL := b.baseURL.orElse fun _ => a.baseURL
  data := b.data.orElse fun _ => a.data
  headers := b.headers.orElse fun _ => a.headers
  responseType := b.responseType.orElse fun _ => a.responseType
  timeout := b.timeout.orElse fun _ => a.timeout
  noBearer := b.noBearer.orElse fun _ => a.noBearer

/-- JS truthiness of an optional boolean property (`options.noBearer ?`). -/
def isTruthy : Option Bool → Bool
  | some b => b
  | none => false

/-- The `loginData` field.  `Blurit` initializes it to `{} as LoginResponse`
(all three properties undefined), modelled by `none` in every field. -/
structure Session where
  token : Option String
  refreshToken : Option String
  expireTime : Option Int
  deriving Repr, DecidableEq

/-- The empty session a fresh client holds. -/
def emptySession : Session := ⟨none, none, none⟩

/-- JS template-literal rendering of a possibly-undefined string
(`Bearer ${this.loginData.token}` prints "undefined" for a missing token). -/
def jsStr : Option String → String
  | some s => s
  | none => "undefined"

/-- A possibly-undefined string property as a JS value (for JSON bodies,
where an undefined property is dropped by serialization, unlike the
template-literal coercion above). -/
def jsOfOptStr : Option String → JSValue
  | some s => .vScalar s
  | none => .vUndefined

/-- The client state: the constructor argument `fetchInit`, the
construction-time runtime probe `isNode = (typeof window === "undefined")`
cached in a readonly field, and the mutable `loginData` session. -/
structure Client where
  fetchInit : Option AxiosConfig
  isNode : Bool
  loginData : Session
  deriving Repr

/-- `new Blurit(fetchInit)`: probes the runtime once (is a global `window`
defined?) and starts with an empty session. -/
def mkClient (windowDefined : Bool) (fetchInit : Option AxiosConfig) : Client :=
  { fetchInit := fetchInit, isNode := !windowDefined, loginData := emptySession }

/-- The headers object `request` computes: empty when `noBearer` is truthy,
otherwise exactly the bearer header built from the current session token. -/
def computedHeaders (s : Session) (noBearer : Option Bool) : List (String × String) :=
  if isTruthy noBearer then []
  else [("Authorization", "Bearer " ++ jsStr s.token)]

/-- The config `request` hands to `axiosInstance.request`:
`{url: path, ...this.fetchInit, ...options, data, headers}` — the literal
`url` first (so both later spreads may override it), then the base config,
then the per-call options, then the explicit `data` (always `options.data`)
and the computed `headers`, which override whatever the spreads left. -/
def buildRequest (fetchInit : Option AxiosConfig) (s : Session) (path : String)
    (options : AxiosConfig) : AxiosConfig :=
  let base : AxiosConfig := { url := some path }
  let merged := overlay (overlay base (fetchInit.getD {})) options
  { merged with
    data := options.data,
    headers := some (computedHeaders s options.noBearer) }

/-- A transport response: HTTP status, status text, and the deserialized
body, typed by the shape the caller expects. -/
structure Response (α : Type) where
  status : Nat
  statusText : String
  data : α
  deriving Repr

/-- The tail of `request`: status below 300 returns the body as is; status
at least 300 throws `Error calling ${path}: ${res.statusText}`. -/
def handleResponse {α : Type} (path : String) (res : Response α) : Except String α :=
  if 300 ≤ res.status then
    .error ("Error calling " ++ path ++ ": " ++ res.statusText)
  else
    .ok res.data

/-- The `/login` and `/token` success body `{token, refreshToken, expireTime}`. -/
structure LoginResponse where
  token : String
  refreshToken : String
  expireTime : Int
  deriving Repr, DecidableEq

/-- `saveLoginData`: the session is overwritten wholesale by the triple. -/
def sessionOfTriple (d : LoginResponse) : Session :=
  ⟨some d.token, some d.refreshToken, some d.expireTime⟩

/-- `saveLoginData(data)` on the client. -/
def saveLoginData (c : Client) (d : LoginResponse) : Client :=
  { c with loginData := sessionOfTriple d }

/-- Untyped response bodies for the facade operations that pass the body
through without interpreting it. -/
inductive ResponseBody where
  | raw (s : String) : ResponseBody
  deriving Repr, DecidableEq

/-- The result of running one SDK operation against the transport oracle:
the requests it issued (in order), the client state after the call, and
the returned value or thrown error message. -/
def RunResult (α : Type) : Type :=
  List AxiosConfig × Client × Except String α

/-- The `RequestOpions` literal `login` builds: POST, JSON credentials
body, `noBearer: true`. -/
def loginOptions (clientId secretId : String) : AxiosConfig :=
  { method := some "POST",
    data := some (.json [("clientId", .vScalar clientId), ("secretId", .vScalar secretId)]),
    noBearer := some true }

/-- `login(clientId, secretId)`: issues the `/login` request, saves the
returned triple on success, propagates the thrown error on failure
(leaving the session untouched).  The `data instanceof Error` guard in the
source is dead code — `request` throws rather than returning an Error. -/
def runLogin (c : Client) (clientId secretId : String)
    (res : Response LoginResponse) : RunResult LoginResponse :=
  let req := buildRequest c.fetchInit c.loginData "/login" (loginOptions clientId secretId)
  match handleResponse "/login" res with
  | .ok d => ([req], saveLoginData c d, .ok d)
  | .error e => ([req], c, .error e)

/-- The `RequestOpions` literal `refresh` builds: POST with the current
session refresh token in the JSON body (undefined before any login, and
dropped by JSON serialization in that case). -/
def refreshOptions (s : Session) : AxiosConfig :=
  { method := some "POST",
    data := some (.json [("refreshToken", jsOfOptStr s.refreshToken)]) }

/-- `refresh()`: issues the `/token` request with the current refresh
token, saves the returned triple on success, propagates the error on
failure leaving the session untouched. -/
def runRefresh (c : Client) (res : Response LoginResponse) : RunResult LoginResponse :=
  let req := buildRequest c.fetchInit c.loginData "/token" (refreshOptions c.loginData)
  match handleResponse "/token" res with
  | .ok d => ([req], saveLoginData c d, .ok d)
  | .error e => ([req], c, .error e)

/-- Model of the external content-type sniffer (`fileTypeFromBuffer` from
the file-type package): magic-number detection reading only the leading
bytes of the payload, shown here for the PNG and JPEG signatures; unknown
signatures yield no type. -/
def sniffMime (bytes : List Nat) : Option String :=
  if bytes.take 4 = [137, 80, 78, 71] then some "image/png"
  else if bytes.take 3 = [255, 216, 255] then some "image/jpeg"
  else none

/-- The PNG magic number, as a concrete payload. -/
def pngHeader : List Nat := [137, 80, 78, 71, 13, 10, 26, 10]

/-- The media argument of the private `createJob`: a `File` or a `Blob`. -/
inductive MediaData where
  | file (f : FileData) : MediaData
  | blob (b : BlobData) : MediaData
  deriving Repr, DecidableEq

/-- The blob content carried by either media kind. -/
def MediaData.blobData : MediaData → BlobData
  | .file f => f.blob
  | .blob b => b

/-- The filename `createJob` appends with the media:
`args.data instanceof File ? args.data.name : args.filename`. -/
def MediaData.appendName : MediaData → Option String → Option String
  | .file f, _ => some f.name
  | .blob _, filename => filename

/-- The multipart form the private `createJob` builds: `input_media` with
the media and its filename appended first, then (when options are given)
the encoded option fields. -/
def createJobForm (data : MediaData) (filename : Option String)
    (options : Option AnonymizationOptions) : List (String × FormEntry) :=
  let initial := [("input_media", FormEntry.blobE data.blobData (data.appendName filename))]
  match options with
  | some o => appendFormData initial o.toValue none
  | none => initial

/-- `createJobFromBuffer`: sniffs the content type from the buffer bytes,
wraps the buffer in a blob carrying the sniffed type, and builds the job
form. -/
def createJobFromBufferForm (bytes : List Nat) (filename : String)
    (options : Option AnonymizationOptions) : List (String × FormEntry) :=
  createJobForm (.blob { bytes := bytes, type := sniffMime bytes }) (some filename) options

/-- `createJobFromFile`: passes the caller File through unchanged. -/
def createJobFromFileForm (file : FileData)
    (options : Option AnonymizationOptions) : List (String × FormEntry) :=
  createJobForm (.file file) none options

/-- `createJobFromBlob`: passes the caller Blob through unchanged. -/
def createJobFromBlobForm (blob : BlobData) (filename : String)
    (options : Option AnonymizationOptions) : List (String × FormEntry) :=
  createJobForm (.blob blob) (some filename) options

/-- `filePath.split("/").pop()!` of the node `createJobFromPath`. -/
def basename (filePath : String) : String :=
  (filePath.splitOn "/").getLastD ""

/-- The public operations of the common `Blurit` class other than `login`
and `refresh`.  `createJobFromBuffer` carries the raw bytes the caller
passed; file and blob variants carry the caller objects. -/
inductive CommonOp where
  | createJobFromBuffer (bytes : List Nat) (filename : String)
      (options : Option AnonymizationOptions) : CommonOp
  | createJobFromFile (file : FileData) (options : Option AnonymizationOptions) : CommonOp
  | createJobFromBlob (blob : BlobData) (filename : String)
      (options : Option AnonymizationOptions) : CommonOp
  | getJobStatus (jobId : String) : CommonOp
  | getResultFile (filename : String) (responseType : String) : CommonOp
  | getWebhooks : CommonOp
  | createWebhook (webhookUrl : String) : CommonOp
  | updateWebhook (id : String) (webhookUrl : String) : CommonOp
  | deleteWebhook (id : String) : CommonOp
  | testWebhook (id : String) : CommonOp

/-- The request `op` makes through the pipeline: its path and
`RequestOpions` literal, straight from the source of each facade method;
or the capability error `getResultFile` throws in the browser before any
request (`buffer`/`stream` with `isNode` false). -/
def commonOpCall (c : Client) (op : CommonOp) : Except String (String × AxiosConfig) :=
  match op with
  | .createJobFromBuffer bytes filename options =>
    .ok ("/innovation-service/anonymization",
         { method := some "POST",
           data := some (.form (createJobFromBufferForm bytes filename options)) })
  | .createJobFromFile file options =>
    .ok ("/innovation-service/anonymization",
         { method := some "POST",
           data := some (.form (createJobFromFileForm file options)) })
  | .createJobFromBlob blob filename options =>
    .ok ("/innovation-service/anonymization",
         { method := some "POST",
           data := some (.form (createJobFromBlobForm blob filename options)) })
  | .getJobStatus jobId =>
    .ok ("/innovation-service/anonymization?anonymization_job_id=" ++ jobId,
         { method := some "GET" })
  | .getResultFile filename responseType =>
    if !c.isNode && (responseType = "buffer" || responseType = "stream") then
      .error (responseType ++ " is not supported in the browser")
    else
      .ok ("/innovation-service/result/" ++ filename,
           { method := some "GET",
             responseType := some (if responseType = "buffer" then "arraybuffer"
                                   else responseType) })
  | .getWebhooks =>
    .ok ("/webhook-url/get-many", { method := some "GET" })
  | .createWebhook webhookUrl =>
    .ok ("/webhook-url",
         { method := some "POST",
           data := some (.json [("webhookUrl", .vScalar webhookUrl)]) })
  | .updateWebhook id webhookUrl =>
    .ok ("/webhook-url/" ++ id,
         { method := some "PUT",
           data := some (.json [("webhookUrl", .vScalar webhookUrl)]) })
  | .deleteWebhook id =>
    .ok ("/webhook-url/" ++ id, { method := some "DELETE" })
  | .testWebhook id =>
    .ok ("/webhook-url/test/" ++ id, { method := some "POST" })

/-- Running a common facade operation: when the capability gate throws, no
request is issued; otherwise exactly one request goes out through the
pipeline and the outcome is the pipeline result.  None of these operations
writes `loginData`. -/
def runCommonOp (c : Client) (op : CommonOp) (res : Response ResponseBody) :
    RunResult ResponseBody :=
  match commonOpCall c op with
  | .error e => ([], c, .error e)
  | .ok (path, options) =>
    ([buildRequest c.fetchInit c.loginData path options], c, handleResponse path res)

/-- The browser subclass `createJobFromPath`: throws immediately, issuing
no request. -/
def runBrowserCreateJobFromPath (c : Client) : RunResult ResponseBody :=
  ([], c, .error "createJobFromPath is only available in Node.js")

/-- The browser subclass `saveResultFile`: throws immediately, issuing no
request. -/
def runBrowserSaveResultFile (c : Client) : RunResult ResponseBody :=
  ([], c, .error "saveResultFile is only available in Node.js")

/-- The node subclass `createJobFromPath`: reads the file (the bytes are
the filesystem oracle), takes the basename of the path, and delegates to
`createJobFromBuffer`. -/
def runNodeCreateJobFromPath (c : Client) (filePath : String) (fileBytes : List Nat)
    (options : Option AnonymizationOptions) (res : Response ResponseBody) :
    RunResult ResponseBody :=
  runCommonOp c (.createJobFromBuffer fileBytes (basename filePath) options) res

/-- The node subclass `saveResultFile`: fetches the result as a stream via
`getResultFile` and pipes it to disk (the write is outside the model, so
the outcome carries no value). -/
def runNodeSaveResultFile (c : Client) (filename outputFilename : String)
    (res : Response ResponseBody) : RunResult Unit :=
  match runCommonOp c (.getResultFile filename "stream") res with
  | (reqs, c2, .ok _) => (reqs, c2, .ok ())
  | (reqs, c2, .error e) => (reqs, c2, .error e)

mutual

/-- The encoder only ever appends: running it on an accumulated form is the
accumulated form followed by what it produces from an empty form. -/
theorem appendFormData_accum (form : List (String × FormEntry)) (v : JSValue)
    (parentKey : Option String) :
    appendFormData form v parentKey = form ++ appendFormData [] v parentKey :=
  match v with
  | .vObj fields => by
    simpa [appendFormData] using appendFields_accum form fields parentKey
  | .vUndefined => by simp [appendFormData]
  | .vNull => by simp [appendFormData]
  | .vScalar s => by simp [appendFormData]
  | .vBlob b => by simp [appendFormData]

/-- Accumulation for the field loop. -/
theorem appendFields_accum (form : List (String × FormEntry))
    (fields : List (String × JSValue)) (parentKey : Option String) :
    appendFields form fields parentKey = form ++ appendFields [] fields parentKey :=
  match fields with
  | [] => by simp [appendFields]
  | (key, v) :: rest => by
    by_cases h : v.isNullish
    · rw [appendFields, appendFields]
      simp only [h, if_pos]
      exact appendFields_accum form rest parentKey
    · rw [appendFields, appendFields]
      simp only [h, if_neg, Bool.false_eq_true, not_false_iff]
      rw [appendFields_accum (appendFormData form v (some (childKey parentKey key))) rest parentKey,
          appendFields_accum (appendFormData [] v (some (childKey parentKey key))) rest parentKey,
          appendFormData_accum form v (some (childKey parentKey key))]
      simp

end

/-- Unfolding one field of the loop, phrased with concatenation. -/
theorem appendFields_cons (key : String) (v : JSValue)
    (rest : List (String × JSValue)) (parentKey : Option String) :
    appendFields [] ((key, v) :: rest) parentKey =
      (if v.isNullish then []
       else appendFormData [] v (some (childKey parentKey key))) ++
      appendFields [] rest parentKey := by
  rw [appendFields]
  by_cases h : v.isNullish
  · simp [h]
  · simp only [h, Bool.false_eq_true, if_neg, not_false_iff]
    exact appendFields_accum _ rest parentKey

/-- Encoding a present `included_area` object under its key prefix. -/
theorem append_includedArea (a : IncludedArea) :
    appendFormData [] a.toValue (some "included_area") =
      [("included_area[top]", FormEntry.str (toString a.top)),
       ("included_area[bottom]", FormEntry.str (toString a.bottom)),
       ("included_area[left]", FormEntry.str (toString a.left)),
       ("included_area[right]", FormEntry.str (toString a.right))] := by
  simp [IncludedArea.toValue, appendFormData, appendFields, JSValue.isNullish,
        childKey, keyStr]

/-- Encoding a present `blur_type` object under its key prefix. -/
theorem append_blurType (b : BlurType) :
    appendFormData [] b.toValue (some "blur_type") =
      (match b.anonymization_type with
       | some t => [("blur_type[anonymization_type]", FormEntry.str t)]
       | none => []) ++
      (match b.smooth_padding with
       | some n => [("blur_type[smooth_padding]", FormEntry.str (toString n))]
       | none => []) ++
      (match b.hex_color with
       | some s => [("blur_type[hex_color]", FormEntry.str s)]
       | none => []) ++
      (match b.num_pixels with
       | some n => [("blur_type[num_pixels]", FormEntry.str (toString n))]
       | none => []) := by
  obtain ⟨a1, a2, a3, a4⟩ := b
  cases a1 <;> cases a2 <;> cases a3 <;> cases a4 <;>
    simp [BlurType.toValue, appendFormData, appendFields, JSValue.isNullish,
          jsOfStr, jsOfInt, childKey, keyStr]

set_option maxHeartbeats 1600000 in
/-- C5: the options encoder is a depth-first traversal appending scalars
under their accumulated bracketed key path, recursing into nested
structures with the path as prefix, appending a blob directly under its
key without recursion, and skipping every undefined or null field; the
form it produces from an `AnonymizationOptions` object holds exactly the
defined fields and nothing else. -/
theorem c5_options_encoder_exact :
    (∀ o : AnonymizationOptions, encodeOptions o = specDefinedFields o) ∧
    (∀ form s parentKey,
        appendFormData form (JSValue.vScalar s) parentKey =
          form ++ [(keyStr parentKey, FormEntry.str s)]) ∧
    (∀ form b parentKey,
        appendFormData form (JSValue.vBlob b) parentKey =
          form ++ [(keyStr parentKey, FormEntry.blobE b none)]) ∧
    (∀ form parentKey, appendFormData form JSValue.vUndefined parentKey = form) ∧
    (∀ form parentKey, appendFormData form JSValue.vNull parentKey = form) ∧
    (∀ form key rest parentKey,
        appendFields form ((key, JSValue.vUndefined) :: rest) parentKey =
          appendFields form rest parentKey) ∧
    (∀ form key rest parentKey,
        appendFields form ((key, JSValue.vNull) :: rest) parentKey =
          appendFields form rest parentKey) := by
  refine ⟨?_, ?_, ?_, ?_, ?_, ?_, ?_⟩
  · intro o
    obtain ⟨f, p, d, area, blur⟩ := o
    rcases blur with _ | ⟨a1, a2, a3, a4⟩
    · cases f <;> cases p <;> cases d <;> cases area <;> rfl
    · cases a1 <;> cases a2 <;> cases a3 <;> cases a4 <;>
        cases f <;> cases p <;> cases d <;> cases area <;> rfl
  · intro form s parentKey; simp [appendFormData]
  · intro form b parentKey; simp [appendFormData]
  · intro form parentKey; simp [appendFormData]
  · intro form parentKey; simp [appendFormData]
  · intro form key rest parentKey; simp [appendFields, JSValue.isNullish]
  · intro form key rest parentKey; simp [appendFields, JSValue.isNullish]

/-- The outgoing headers are always exactly the computed headers object. -/
theorem buildRequest_headers (fetchInit : Option AxiosConfig) (s : Session)
    (path : String) (options : AxiosConfig) :
    (buildRequest fetchInit s path options).headers =
      some (computedHeaders s options.noBearer) := rfl

/-- Every facade `RequestOpions` literal reachable through `commonOpCall`
leaves `noBearer` unset. -/
theorem commonOpCall_noBearer (c : Client) (op : CommonOp)
    (pr : String × AxiosConfig) (h : commonOpCall c op = .ok pr) :
    pr.2.noBearer = none := by
  cases op <;> simp only [commonOpCall] at h
  case getResultFile filename rt =>
    split at h
    · exact absurd h (by simp)
    · injection h with h; subst h; rfl
  all_goals (injection h with h; subst h; rfl)

/-- Common facade operations never write the client state. -/
theorem runCommonOp_client (c : Client) (op : CommonOp) (res : Response ResponseBody) :
    (runCommonOp c op res).2.1 = c := by
  cases hc : commonOpCall c op <;> simp [runCommonOp, hc]

/-- Every request a common facade operation issues carries the bearer
header built from the session token at call time. -/
theorem runCommonOp_bearer (c : Client) (op : CommonOp) (res : Response ResponseBody)
    (t : String) (h : c.loginData.token = some t) :
    ∀ req ∈ (runCommonOp c op res).1,
      req.headers = some [("Authorization", "Bearer " ++ t)] := by
  intro req hreq
  cases hc : commonOpCall c op with
  | error e => simp [runCommonOp, hc] at hreq
  | ok pr =>
    obtain ⟨path, options⟩ := pr
    simp only [runCommonOp, hc, List.mem_singleton] at hreq
    subst hreq
    rw [buildRequest_headers, commonOpCall_noBearer c op _ hc]
    simp [computedHeaders, isTruthy, jsStr, h]

/-- C9: the outgoing request is the spread merge of the base configuration,
the per-call options and the computed headers, later layers winning: the
headers are always the computed headers object, the body is always the
per-call body, every other field takes the per-call value when set,
otherwise the base-configuration value, otherwise (for the url) the path;
base-configuration fields not overridden are preserved.  A client built
without a base configuration behaves as one built with the empty one. -/
theorem c9_request_merge (fetchInit : AxiosConfig) (s : Session) (path : String)
    (options : AxiosConfig) :
    (buildRequest (some fetchInit) s path options).headers =
        some (computedHeaders s options.noBearer) ∧
    (buildRequest (some fetchInit) s path options).data = options.data ∧
    (buildRequest (some fetchInit) s path options).method =
        options.method.orElse (fun _ => fetchInit.method) ∧
    (buildRequest (some fetchInit) s path options).baseURL =
        options.baseURL.orElse (fun _ => fetchInit.baseURL) ∧
    (buildRequest (some fetchInit) s path options).responseType =
        options.responseType.orElse (fun _ => fetchInit.responseType) ∧
    (buildRequest (some fetchInit) s path options).timeout =
        options.timeout.orElse (fun _ => fetchInit.timeout) ∧
    (buildRequest (some fetchInit) s path options).url =
        options.url.orElse (fun _ => fetchInit.url.orElse (fun _ => some path)) ∧
    buildRequest none s path options = buildRequest (some {}) s path options := by
  refine ⟨rfl, rfl, ?_, ?_, ?_, ?_, ?_, rfl⟩ <;>
    simp [buildRequest, overlay]

/-- C1: every request issued by a facade operation other than login carries
exactly the header `Authorization: Bearer <t>` with `t` the session token
at call time; the login request goes out with an empty headers object (no
Authorization header); and the `noBearer` suppression flag is set by the
login options alone. -/
theorem c1_bearer_only_for_login :
    (∀ (c : Client) (op : CommonOp) (res : Response ResponseBody) (t : String),
        c.loginData.token = some t →
        ∀ req ∈ (runCommonOp c op res).1,
          req.headers = some [("Authorization", "Bearer " ++ t)]) ∧
    (∀ (c : Client) (res : Response LoginResponse) (t : String),
        c.loginData.token = some t →
        ∀ req ∈ (runRefresh c res).1,
          req.headers = some [("Authorization", "Bearer " ++ t)]) ∧
    (∀ (c : Client) (clientId secretId : String) (res : Response LoginResponse),
        ∀ req ∈ (runLogin c clientId secretId res).1, req.headers = some []) ∧
    (∀ clientId secretId, (loginOptions clientId secretId).noBearer = some true) ∧
    (∀ s, (refreshOptions s).noBearer = none) ∧
    (∀ (c : Client) (op : CommonOp) (pr : String × AxiosConfig),
        commonOpCall c op = .ok pr → pr.2.noBearer = none) := by
  refine ⟨runCommonOp_bearer, ?_, ?_, fun _ _ => rfl, fun _ => rfl, commonOpCall_noBearer⟩
  · intro c res t h req hreq
    cases hh : handleResponse "/token" res <;>
      simp only [runRefresh, hh, List.mem_singleton] at hreq <;>
      subst hreq <;>
      rw [buildRequest_headers] <;>
      simp [refreshOptions, computedHeaders, isTruthy, jsStr, h]
  · intro c clientId secretId res req hreq
    cases hh : handleResponse "/login" res <;>
      simp only [runLogin, hh, List.mem_singleton] at hreq <;>
      subst hreq <;>
      rw [buildRequest_headers] <;>
      simp [loginOptions, computedHeaders, isTruthy]

/-- Witness for C1 at concrete inputs: a client that logged in with token
"tok" sends the bearer header on `getWebhooks`, and a fresh login request
goes out with an empty headers object. -/
theorem c1_bearer_only_for_login_witness :
    (buildRequest none (sessionOfTriple ⟨"tok", "ref", 1⟩) "/webhook-url/get-many"
        { method := some "GET" }).headers =
      some [("Authorization", "Bearer tok")] ∧
    (buildRequest none emptySession "/login" (loginOptions "cid" "sid")).headers =
      some [] :=
  ⟨c1_bearer_only_for_login.1
      (saveLoginData (mkClient false none) ⟨"tok", "ref", 1⟩) .getWebhooks
      ⟨200, "OK", .raw ""⟩ "tok" rfl _ (List.Mem.head _),
   c1_bearer_only_for_login.2.2.1 (mkClient false none) "cid" "sid"
      ⟨200, "OK", ⟨"t", "r", 1⟩⟩ _ (List.Mem.head _)⟩

/-- C2: the pipeline returns the deserialized body unchanged for any status
below 300, and for any status at least 300 throws the generic error built
from the request path and the status text (no body detail); the outcome of
every facade operation that reaches the pipeline is exactly this. -/
theorem c2_status_threshold :
    (∀ (α : Type) (path : String) (res : Response α),
        (res.status < 300 → handleResponse path res = .ok res.data) ∧
        (300 ≤ res.status →
          handleResponse path res =
            .error ("Error calling " ++ path ++ ": " ++ res.statusText))) ∧
    (∀ (c : Client) (op : CommonOp) (pr : String × AxiosConfig)
        (res : Response ResponseBody),
        commonOpCall c op = .ok pr →
        (runCommonOp c op res).2.2 = handleResponse pr.1 res) := by
  constructor
  · intro α path res
    constructor
    · intro h
      simp [handleResponse, Nat.not_le.mpr h]
    · intro h
      simp [handleResponse, h]
  · intro c op pr res h
    obtain ⟨path, options⟩ := pr
    simp [runCommonOp, h]

/-- Witness for C2 at concrete inputs: a 200 response is returned as is,
a 404 response throws the error naming the path and status text. -/
theorem c2_status_threshold_witness :
    handleResponse "/ok" (⟨200, "OK", ResponseBody.raw "b"⟩ : Response ResponseBody) =
        .ok (ResponseBody.raw "b") ∧
    handleResponse "/bad" (⟨404, "Not Found", ResponseBody.raw ""⟩ : Response ResponseBody) =
        .error ("Error calling " ++ "/bad" ++ ": " ++ "Not Found") :=
  ⟨(c2_status_threshold.1 ResponseBody "/ok" _).1 (by decide),
   (c2_status_threshold.1 ResponseBody "/bad" _).2 (by decide)⟩

/-- C3: on a success response, login and refresh replace the session
wholesale with the returned triple and return that triple; on a failure
(the pipeline throws) the session is left exactly as it was and the error
propagates. -/
theorem c3_session_replace_or_untouched :
    (∀ (c : Client) (clientId secretId : String) (res : Response LoginResponse),
        (res.status < 300 →
          (runLogin c clientId secretId res).2.1 =
              { c with loginData := sessionOfTriple res.data } ∧
          (runLogin c clientId secretId res).2.2 = .ok res.data) ∧
        (300 ≤ res.status →
          (runLogin c clientId secretId res).2.1 = c ∧
          (runLogin c clientId secretId res).2.2 =
            .error ("Error calling " ++ "/login" ++ ": " ++ res.statusText))) ∧
    (∀ (c : Client) (res : Response LoginResponse),
        (res.status < 300 →
          (runRefresh c res).2.1 = { c with loginData := sessionOfTriple res.data } ∧
          (runRefresh c res).2.2 = .ok res.data) ∧
        (300 ≤ res.status →
          (runRefresh c res).2.1 = c ∧
          (runRefresh c res).2.2 =
            .error ("Error calling " ++ "/token" ++ ": " ++ res.statusText))) := by
  constructor
  · intro c clientId secretId res
    constructor
    · intro h
      simp [runLogin, handleResponse, Nat.not_le.mpr h, saveLoginData]
    · intro h
      simp [runLogin, handleResponse, h]
  · intro c res
    constructor
    · intro h
      simp [runRefresh, handleResponse, Nat.not_le.mpr h, saveLoginData]
    · intro h
      simp [runRefresh, handleResponse, h]

/-- Witness for C3 at concrete inputs: a 200 login replaces the session and
returns the triple; a 401 login leaves the fresh client untouched. -/
theorem c3_session_replace_or_untouched_witness :
    ((runLogin (mkClient false none) "cid" "sid" ⟨200, "OK", ⟨"t", "r", 9⟩⟩).2.1 =
        { mkClient false none with loginData := sessionOfTriple ⟨"t", "r", 9⟩ } ∧
      (runLogin (mkClient false none) "cid" "sid" ⟨200, "OK", ⟨"t", "r", 9⟩⟩).2.2 =
        .ok ⟨"t", "r", 9⟩) ∧
    ((runLogin (mkClient false none) "cid" "sid" ⟨401, "Unauthorized", ⟨"", "", 0⟩⟩).2.1 =
        mkClient false none ∧
      (runLogin (mkClient false none) "cid" "sid" ⟨401, "Unauthorized", ⟨"", "", 0⟩⟩).2.2 =
        .error ("Error calling " ++ "/login" ++ ": " ++ "Unauthorized")) :=
  ⟨(c3_session_replace_or_untouched.1 (mkClient false none) "cid" "sid"
      ⟨200, "OK", ⟨"t", "r", 9⟩⟩).1 (by decide),
   (c3_session_replace_or_untouched.1 (mkClient false none) "cid" "sid"
      ⟨401, "Unauthorized", ⟨"", "", 0⟩⟩).2 (by decide)⟩

/-- C4: in a runtime lacking filesystem access the browser subclass
filesystem methods and the buffer/stream result representations fail with
an unsupported-operation error and issue no request; the runtime
capability is probed once at construction (`isNode`) and never changes. -/
theorem c4_capability_gating :
    (∀ c : Client, runBrowserCreateJobFromPath c =
        ([], c, .error "createJobFromPath is only available in Node.js")) ∧
    (∀ c : Client, runBrowserSaveResultFile c =
        ([], c, .error "saveResultFile is only available in Node.js")) ∧
    (∀ (c : Client) (filename rt : String) (res : Response ResponseBody),
        c.isNode = false → (rt = "buffer" ∨ rt = "stream") →
        runCommonOp c (.getResultFile filename rt) res =
          ([], c, .error (rt ++ " is not supported in the browser"))) ∧
    (∀ (w : Bool) (fi : Option AxiosConfig), (mkClient w fi).isNode = !w) ∧
    (∀ (c : Client) (op : CommonOp) (res : Response ResponseBody),
        ((runCommonOp c op res).2.1).isNode = c.isNode) ∧
    (∀ (c : Client) (clientId secretId : String) (res : Response LoginResponse),
        ((runLogin c clientId secretId res).2.1).isNode = c.isNode) ∧
    (∀ (c : Client) (res : Response LoginResponse),
        ((runRefresh c res).2.1).isNode = c.isNode) := by
  refine ⟨fun _ => rfl, fun _ => rfl, ?_, fun _ _ => rfl, ?_, ?_, ?_⟩
  · intro c filename rt res hnode hrt
    rcases hrt with h | h <;>
      subst h <;>
      simp [runCommonOp, commonOpCall, hnode]
  · intro c op res
    rw [runCommonOp_client]
  · intro c clientId secretId res
    cases hh : handleResponse "/login" res <;> simp [runLogin, hh, saveLoginData]
  · intro c res
    cases hh : handleResponse "/token" res <;> simp [runRefresh, hh, saveLoginData]

/-- Witness for C4 at concrete inputs: a browser-runtime client rejects the
buffer representation without issuing a request. -/
theorem c4_capability_gating_witness :
    runCommonOp (mkClient true none) (.getResultFile "out.mp4" "buffer")
        ⟨200, "OK", .raw ""⟩ =
      ([], mkClient true none, .error ("buffer" ++ " is not supported in the browser")) :=
  c4_capability_gating.2.2.1 (mkClient true none) "out.mp4" "buffer"
    ⟨200, "OK", .raw ""⟩ rfl (Or.inl rfl)

/-- C7: refresh always issues the `/token` request carrying whatever
refresh token the session currently stores (no local precondition check),
and on a freshly constructed client that token is undefined. -/
theorem c7_refresh_sends_current_token :
    (∀ (c : Client) (res : Response LoginResponse),
        (runRefresh c res).1 =
          [buildRequest c.fetchInit c.loginData "/token" (refreshOptions c.loginData)]) ∧
    (∀ s : Session, (refreshOptions s).data =
        some (.json [("refreshToken", jsOfOptStr s.refreshToken)])) ∧
    (∀ (w : Bool) (fi : Option AxiosConfig),
        (mkClient w fi).loginData.refreshToken = none) ∧
    (∀ (w : Bool) (fi : Option AxiosConfig),
        (refreshOptions (mkClient w fi).loginData).data =
          some (.json [("refreshToken", JSValue.vUndefined)])) := by
  refine ⟨?_, fun _ => rfl, fun _ _ => rfl, fun _ _ => rfl⟩
  intro c res
  cases hh : handleResponse "/token" res <;> simp [runRefresh, hh]

/-- C10: every public operation other than login and refresh leaves the
stored session untouched, whether it returns or throws: the common facade
operations, the node subclass filesystem methods, and the browser subclass
stubs. -/
theorem c10_session_frame :
    (∀ (c : Client) (op : CommonOp) (res : Response ResponseBody),
        ((runCommonOp c op res).2.1).loginData = c.loginData) ∧
    (∀ (c : Client) (filePath : String) (fileBytes : List Nat)
        (options : Option AnonymizationOptions) (res : Response ResponseBody),
        ((runNodeCreateJobFromPath c filePath fileBytes options res).2.1).loginData =
          c.loginData) ∧
    (∀ (c : Client) (filename outputFilename : String) (res : Response ResponseBody),
        ((runNodeSaveResultFile c filename outputFilename res).2.1).loginData =
          c.loginData) ∧
    (∀ c : Client, ((runBrowserCreateJobFromPath c).2.1).loginData = c.loginData) ∧
    (∀ c : Client, ((runBrowserSaveResultFile c).2.1).loginData = c.loginData) := by
  refine ⟨?_, ?_, ?_, fun _ => rfl, fun _ => rfl⟩
  · intro c op res
    rw [runCommonOp_client]
  · intro c filePath fileBytes options res
    rw [runNodeCreateJobFromPath, runCommonOp_client]
  · intro c filename outputFilename res
    rw [runNodeSaveResultFile]
    cases hr : runCommonOp c (.getResultFile filename "stream") res with
    | mk reqs rest =>
      obtain ⟨c2, out⟩ := rest
      have := runCommonOp_client c (.getResultFile filename "stream") res
      rw [hr] at this
      cases out <;> simp_all

/-- The job form always starts with the `input_media` entry; the encoded
option fields (if any) follow it. -/
theorem createJobForm_eq (data : MediaData) (filename : Option String)
    (options : Option AnonymizationOptions) :
    createJobForm data filename options =
      ("input_media", FormEntry.blobE data.blobData (data.appendName filename)) ::
        (options.map encodeOptions).getD [] := by
  cases options with
  | none => rfl
  | some o =>
    simp only [createJobForm, Option.map, Option.getD, encodeOptions]
    rw [appendFormData_accum]
    rfl

/-- C6 (counterexample): `createJobFromBlob` appends the caller blob with
its caller-supplied content type (here text/plain) even though sniffing
the leading bytes of the payload yields image/png — so the content type of
a create-job call is not always determined by magic-number sniffing. -/
theorem c6_counterexample_blob_type_not_sniffed :
    createJobFromBlobForm ⟨pngHeader, some "text/plain"⟩ "img.png" none =
      [("input_media",
        FormEntry.blobE ⟨pngHeader, some "text/plain"⟩ (some "img.png"))] ∧
    sniffMime pngHeader = some "image/png" ∧
    (BlobData.mk pngHeader (some "text/plain")).type ≠ sniffMime pngHeader :=
  ⟨rfl, by decide, by decide⟩

/-- C6 (amended): every create-job variant appends the media first under
`input_media` with its filename, before any option field; the content type
is sniffed from the leading bytes of the payload for the buffer and path
variants, while the file and blob variants pass the caller File/Blob — and
hence its content type — through unchanged. -/
theorem c6_media_first_and_sniffing :
    (∀ (data : MediaData) (filename : Option String)
        (options : Option AnonymizationOptions),
        createJobForm data filename options =
          ("input_media", FormEntry.blobE data.blobData (data.appendName filename)) ::
            (options.map encodeOptions).getD []) ∧
    (∀ (bytes : List Nat) (filename : String)
        (options : Option AnonymizationOptions),
        createJobFromBufferForm bytes filename options =
          ("input_media",
            FormEntry.blobE ⟨bytes, sniffMime bytes⟩ (some filename)) ::
            (options.map encodeOptions).getD []) ∧
    (∀ (c : Client) (filePath : String) (fileBytes : List Nat)
        (options : Option AnonymizationOptions) (res : Response ResponseBody),
        runNodeCreateJobFromPath c filePath fileBytes options res =
          runCommonOp c (.createJobFromBuffer fileBytes (basename filePath) options) res) ∧
    (∀ (file : FileData) (options : Option AnonymizationOptions),
        createJobFromFileForm file options =
          ("input_media", FormEntry.blobE file.blob (some file.name)) ::
            (options.map encodeOptions).getD []) ∧
    (∀ (blob : BlobData) (filename : String)
        (options : Option AnonymizationOptions),
        createJobFromBlobForm blob filename options =
          ("input_media", FormEntry.blobE blob (some filename)) ::
            (options.map encodeOptions).getD []) := by
  refine ⟨createJobForm_eq, ?_, fun _ _ _ _ _ => rfl, ?_, ?_⟩
  · intro bytes filename options
    rw [createJobFromBufferForm, createJobForm_eq]
    rfl
  · intro file options
    rw [createJobFromFileForm, createJobForm_eq]
    rfl
  · intro blob filename options
    rw [createJobFromBlobForm, createJobForm_eq]
    rfl

/-- Appending to a fixed string on the left is injective. -/
theorem stringAppend_left_inj (s : String) {a b : String}
    (h : s ++ a = s ++ b) : a = b := by
  obtain ⟨ad⟩ := a
  obtain ⟨bd⟩ := b
  obtain ⟨sd⟩ := s
  simp only [String.ext_iff, String.data_append] at h ⊢
  exact List.append_cancel_left h

/-- C8: after a successful login immediately followed by a successful
refresh, the refresh request carried exactly the refresh token returned by
login, the client ends holding the triple returned by refresh, and every
subsequent request attaches the new token — so whenever the two tokens
differ, the login token is no longer attached to any later call. -/
theorem c8_login_refresh_rotation :
    ∀ (w : Bool) (fi : Option AxiosConfig) (clientId secretId : String)
      (res1 res2 : Response LoginResponse),
      res1.status < 300 → res2.status < 300 →
      (refreshOptions
          ((runLogin (mkClient w fi) clientId secretId res1).2.1).loginData).data =
        some (.json [("refreshToken", JSValue.vScalar res1.data.refreshToken)]) ∧
      ((runRefresh ((runLogin (mkClient w fi) clientId secretId res1).2.1) res2).2.1).loginData =
        sessionOfTriple res2.data ∧
      (∀ (op : CommonOp) (res : Response ResponseBody),
        ∀ req ∈ (runCommonOp
            ((runRefresh ((runLogin (mkClient w fi) clientId secretId res1).2.1) res2).2.1)
            op res).1,
          req.headers = some [("Authorization", "Bearer " ++ res2.data.token)]) ∧
      (res1.data.token ≠ res2.data.token →
        ∀ (op : CommonOp) (res : Response ResponseBody),
        ∀ req ∈ (runCommonOp
            ((runRefresh ((runLogin (mkClient w fi) clientId secretId res1).2.1) res2).2.1)
            op res).1,
          req.headers ≠ some [("Authorization", "Bearer " ++ res1.data.token)]) := by
  intro w fi clientId secretId res1 res2 h1 h2
  have hl : (runLogin (mkClient w fi) clientId secretId res1).2.1 =
      { mkClient w fi with loginData := sessionOfTriple res1.data } := by
    simp [runLogin, handleResponse, Nat.not_le.mpr h1, saveLoginData]
  have hr : ((runRefresh ((runLogin (mkClient w fi) clientId secretId res1).2.1) res2).2.1) =
      { (runLogin (mkClient w fi) clientId secretId res1).2.1 with
        loginData := sessionOfTriple res2.data } := by
    simp [runRefresh, handleResponse, Nat.not_le.mpr h2, saveLoginData]
  have htok :
      (((runRefresh ((runLogin (mkClient w fi) clientId secretId res1).2.1) res2).2.1).loginData).token =
        some res2.data.token := by
    rw [hr]
    rfl
  refine ⟨?_, ?_, ?_, ?_⟩
  · rw [hl]
    rfl
  · rw [hr]
  · intro op res req hreq
    exact runCommonOp_bearer _ op res res2.data.token htok req hreq
  · intro hne op res req hreq habs
    have hb := runCommonOp_bearer _ op res res2.data.token htok req hreq
    rw [hb] at habs
    simp only [Option.some.injEq, List.cons.injEq, Prod.mk.injEq, and_true, true_and] at habs
    exact hne (stringAppend_left_inj "Bearer " habs.symm)

/-- Witness for C8 at concrete inputs: login returning ("t1","r1") followed
by refresh returning ("t2","r2") sends "r1" in the refresh body and ends
holding the ("t2","r2") session. -/
theorem c8_login_refresh_rotation_witness :
    (refreshOptions
        ((runLogin (mkClient false none) "cid" "sid"
            ⟨200, "OK", ⟨"t1", "r1", 1⟩⟩).2.1).loginData).data =
      some (.json [("refreshToken", JSValue.vScalar "r1")]) ∧
    ((runRefresh ((runLogin (mkClient false none) "cid" "sid"
          ⟨200, "OK", ⟨"t1", "r1", 1⟩⟩).2.1)
        ⟨200, "OK", ⟨"t2", "r2", 2⟩⟩).2.1).loginData =
      sessionOfTriple ⟨"t2", "r2", 2⟩ :=
  let h := c8_login_refresh_rotation false none "cid" "sid"
    ⟨200, "OK", ⟨"t1", "r1", 1⟩⟩ ⟨200, "OK", ⟨"t2", "r2", 2⟩⟩
    (by decide) (by decide)
  ⟨h.1, h.2.1⟩
